import Mathlib

/-!
Shallow embedding of `src/trio/_core/_io_kqueue.py` (the kqueue I/O backend
of the trio scheduler), together with proofs about its behaviour.

The Python module holds one piece of mutable state, the dictionary
`self._registered : {(ident, filter): Task or UnboundedQueue}`.  We embed it
as an association list with Python-dict semantics (unique keys; assignment
replaces in place when the key is present, appends otherwise; `del` removes
the entry).  Tasks and queues are identified by opaque numeric ids; the
scheduler primitives `_core.reschedule` and `UnboundedQueue.put_nowait` are
modelled as emitted `Action`s, and the kqueue kernel object as a list of
pending events from which `kqueue.control` takes a prefix.
-/

set_option autoImplicit false

namespace KqueueModel

/-- `select.KQ_EV_ADD` (0x0001). -/
def KQ_EV_ADD : Nat := 1

/-- `select.KQ_EV_DELETE` (0x0002). -/
def KQ_EV_DELETE : Nat := 2

/-- `select.KQ_EV_ONESHOT` (0x0010). -/
def KQ_EV_ONESHOT : Nat := 16

/-- `select.KQ_FILTER_READ` (-1). -/
def KQ_FILTER_READ : Int := -1

/-- `select.KQ_FILTER_WRITE` (-2). -/
def KQ_FILTER_WRITE : Int := -2

/-- An interest key `(ident, filter)`: Python uses `(event.ident, event.filter)`
tuples as dictionary keys.  Idents are file descriptors / resource ids
(non-negative integers); filters are small kernel-defined integers
(e.g. `KQ_FILTER_READ = -1`). -/
abbrev Key := Nat × Int

/-- A kernel event as returned by `kqueue.control`: `select.kevent` fields
`ident`, `filter` and `flags` (the only fields the Python code reads). -/
structure KEvent where
  ident : Nat
  filter : Int
  flags : Nat
  deriving DecidableEq, Repr

/-- The values of `self._registered`: `# {(ident, filter): Task or UnboundedQueue}`.
`task tid` stands for a `_core.Task` object, `queue qid` for a
`_core.UnboundedQueue`; the numeric ids stand for object identity. -/
inductive Receiver where
  | task (tid : Nat)
  | queue (qid : Nat)
  deriving DecidableEq, Repr

/-- The registration dictionary `self._registered`, embedded as an
association list in insertion order with unique keys. -/
abbrev Table := List (Key × Receiver)

/-- Dictionary lookup `self._registered[key]`, returning `none` where Python
would raise `KeyError`. -/
def lookupReg : Table → Key → Option Receiver
  | [], _ => none
  | (k, v) :: rest, key => if k = key then some v else lookupReg rest key

/-- Membership test `key in self._registered`. -/
def containsReg (t : Table) (key : Key) : Bool :=
  (lookupReg t key).isSome

/-- Dictionary assignment `self._registered[key] = v`: replaces the value in
place when the key is present, otherwise appends the new entry. -/
def insertReg : Table → Key → Receiver → Table
  | [], key, v => [(key, v)]
  | (k, w) :: rest, key, v =>
    if k = key then (k, v) :: rest else (k, w) :: insertReg rest key v

/-- Dictionary deletion `del self._registered[key]`.  Python raises `KeyError`
when the key is absent; every `del` in the source runs with the key present
(it was just looked up, or was inserted by the enclosing registration), where
`del` agrees with this removal-by-filter. -/
def eraseReg : Table → Key → Table
  | [], _ => []
  | (k, v) :: rest, key =>
    if k = key then eraseReg rest key else (k, v) :: eraseReg rest key

/-- Whether a receiver is a `_core.Task` (`type(receiver) is _core.Task`). -/
def Receiver.isTask : Receiver → Bool
  | .task _ => true
  | .queue _ => false

/-- The `_KqueueStatistics` attrs class: fields `tasks_waiting`, `monitors`
and `backend` (defaulted to `"kqueue"`). -/
structure KqueueStatistics where
  tasks_waiting : Nat
  monitors : Nat
  backend : String := "kqueue"
  deriving DecidableEq, Repr

/-- The counting loop of `statistics`: walk `self._registered.values()`,
incrementing `tasks_waiting` when `type(receiver) is _core.Task` and
`monitors` otherwise. -/
def statsLoop : Table → Nat × Nat
  | [] => (0, 0)
  | (_, receiver) :: rest =>
    let r := statsLoop rest
    if receiver.isTask then (r.1 + 1, r.2) else (r.1, r.2 + 1)

/-- `KqueueIOManager.statistics`: count waiters and monitors and return a
`_KqueueStatistics` snapshot (backend defaults to `"kqueue"`). -/
def statistics (t : Table) : KqueueStatistics :=
  let r := statsLoop t
  { tasks_waiting := r.1, monitors := r.2 }

/-- The errors raised by the module: `KeyError(key)` from
`self._registered[key]` on a missing key during dispatch, and
`RuntimeError(msg)` from duplicate registration. -/
inductive IOError where
  | keyError (key : Key)
  | runtimeError (msg : String)
  deriving DecidableEq, Repr

/-- The duplicate-registration message, verbatim from the source (the two
adjacent string literals concatenated). -/
def dupMsg : String :=
  "attempt to register multiple listeners for same ident/filter pair"

/-- Python's rendering of a key tuple, as it appears in `str(KeyError(key))`:
`repr((ident, filter))`, e.g. `"(3, -1)"`. -/
def keyRepr (key : Key) : String :=
  "(" ++ toString key.1 ++ ", " ++ toString key.2 ++ ")"

/-- The user-visible message of an error: a `KeyError`'s message is the repr
of its argument; a `RuntimeError`'s message is its string argument. -/
def IOError.message : IOError → String
  | .keyError key => keyRepr key
  | .runtimeError msg => msg

/-- The error message contains the rendering of the offending key. -/
def mentionsKey (e : IOError) (key : Key) : Prop :=
  List.IsInfix (keyRepr key).data e.message.data

instance (e : IOError) (key : Key) : Decidable (mentionsKey e key) :=
  List.decidableInfix _ _

/-- The scheduler-side effects of dispatching one event:
`_core.reschedule(receiver, _core.Value(event))` for a Task receiver,
`receiver.put_nowait(event)` (a non-blocking push) for a queue receiver. -/
inductive Action where
  | reschedule (tid : Nat) (ev : KEvent)
  | putNowait (qid : Nat) (ev : KEvent)
  deriving DecidableEq, Repr

/-- The key `(event.ident, event.filter)` an action was dispatched for. -/
def Action.key : Action → Key
  | .reschedule _ ev => (ev.ident, ev.filter)
  | .putNowait _ ev => (ev.ident, ev.filter)

/-- The result of the dispatch phase of `handle_io`: the table after the
loop, the scheduler actions emitted in order, and the error (if any) that
aborted the loop.  When `err = some e` the actions before the faulting event
have already been performed — Python raises out of the `for` loop with the
earlier mutations in place. -/
structure DispatchResult where
  table : Table
  actions : List Action
  err : Option IOError
  deriving DecidableEq, Repr

/-- The branch on `type(receiver) is _core.Task` inside the dispatch loop:
a Task is rescheduled with the event as value, anything else (an
`UnboundedQueue`) receives the event via `put_nowait`. -/
def dispatchAction : Receiver → KEvent → Action
  | .task tid, ev => .reschedule tid ev
  | .queue qid, ev => .putNowait qid ev

/-- The `for event in events` dispatch loop of `handle_io`:
look up `(event.ident, event.filter)`, delete the registration when
`event.flags & KQ_EV_ONESHOT` is set, then reschedule the task or push to
the queue; a missing key raises `KeyError(key)`. -/
def dispatchAll (t : Table) : List KEvent → DispatchResult
  | [] => ⟨t, [], none⟩
  | ev :: rest =>
    let key : Key := (ev.ident, ev.filter)
    match lookupReg t key with
    | none => ⟨t, [], some (.keyError key)⟩
    | some receiver =>
      let t1 := if ev.flags &&& KQ_EV_ONESHOT ≠ 0 then eraseReg t key else t
      let r := dispatchAll t1 rest
      ⟨r.table, dispatchAction receiver ev :: r.actions, r.err⟩

/-- Timeouts as passed to `kqueue.control`: `none` blocks indefinitely,
`some d` waits at most `d` (the re-poll uses `some 0`). -/
abbrev Timeout := Option Nat

/-- The kernel model behind `self._kqueue.control([], max_events, timeout)`:
the kqueue returns up to `max_events` of its pending ready events, in kernel
order, leaving the rest queued. -/
def kqueueControl (pending : List KEvent) (max_events : Nat) :
    List KEvent × List KEvent :=
  (pending.take max_events, pending.drop max_events)

/-- The `while True` polling loop of `handle_io`, with an explicit fuel
argument for totality: every iteration that does not exit removes exactly
`max_events ≥ 1` pending events, so `pending.length + 1` units of fuel are
never exhausted (proved in `drainAux_spec`).  Returns the accumulated
`events`, the events still pending in the kernel, and, for each
`kqueue.control` call made, the `(max_events, timeout)` it was given. -/
def drainAux : Nat → Nat → Timeout → List KEvent →
    List KEvent × List KEvent × List (Nat × Timeout)
  | 0, _, _, pending => ([], pending, [])
  | fuel + 1, max_events, timeout, pending =>
    let batch := (kqueueControl pending max_events).1
    let rest := (kqueueControl pending max_events).2
    if batch.length < max_events then
      (batch, rest, [(max_events, timeout)])
    else
      let r := drainAux fuel max_events (some 0) rest
      (batch ++ r.1, r.2.1, (max_events, timeout) :: r.2.2)

/-- The result of one `handle_io(timeout)` call: the polls issued, the
events drained, the events left in the kernel, and the dispatch outcome. -/
structure IOResult where
  polls : List (Nat × Timeout)
  events : List KEvent
  kernel : List KEvent
  table : Table
  actions : List Action
  err : Option IOError
  deriving DecidableEq, Repr

/-- `KqueueIOManager.handle_io(timeout)`: compute
`max_events = len(self._registered) + 1`, repeatedly poll the kqueue
(re-polling with `timeout = 0` while batches come back full) and dispatch
every accumulated event. -/
def handle_io (t : Table) (pending : List KEvent) (timeout : Timeout) :
    IOResult :=
  let max_events := t.length + 1
  let r := drainAux (pending.length + 1) max_events timeout pending
  let d := dispatchAll t r.1
  ⟨r.2.2, r.1, r.2.1, d.table, d.actions, d.err⟩

/-- The registration step of `wait_kevent(ident, filter, abort_func)`, up to
the suspension point `yield_indefinitely`: raise `RuntimeError` when the key
is already registered (the table untouched), otherwise record the current
task (`tid`) as the receiver.  The returned table is the state at the moment
the error is raised or the task suspends. -/
def wait_kevent_register (t : Table) (ident : Nat) (filter : Int)
    (tid : Nat) : Table × Option IOError :=
  let key : Key := (ident, filter)
  if containsReg t key then
    (t, some (.runtimeError dupMsg))
  else
    (insertReg t key (.task tid), none)

/-- `_core.Abort` outcomes. -/
inductive Abort where
  | SUCCEEDED
  | FAILED
  deriving DecidableEq, Repr

/-- The `abort` closure installed by `wait_kevent`: call `abort_func`
(modelled by its result `r`), delete the registration when the result is
`Abort.SUCCEEDED`, and return the result unchanged. -/
def wait_kevent_abort (t : Table) (key : Key) (r : Abort) : Table × Abort :=
  if r = Abort.SUCCEEDED then (eraseReg t key, r) else (t, r)

/-- The entry step of the `monitor_kevent(ident, filter)` context manager,
up to the `yield q`: raise `RuntimeError` when the key is already registered
(the table untouched), otherwise record a fresh `UnboundedQueue` (`qid`). -/
def monitor_kevent_enter (t : Table) (ident : Nat) (filter : Int)
    (qid : Nat) : Table × Option IOError :=
  let key : Key := (ident, filter)
  if containsReg t key then
    (t, some (.runtimeError dupMsg))
  else
    (insertReg t key (.queue qid), none)

/-- The `finally` clause of `monitor_kevent`: `del self._registered[key]`,
run on every exit of the `with` scope. -/
def monitor_kevent_exit (t : Table) (ident : Nat) (filter : Int) : Table :=
  eraseReg t (ident, filter)

/-- A whole `monitor_kevent` scope: enter, run the caller's body (an
arbitrary table transformer that also reports whether it raised), and run
the `finally` deletion on both the normal and the exceptional exit path.
Returns the final table, whether the body raised, and the enter error. -/
def monitor_kevent_run (t : Table) (ident : Nat) (filter : Int) (qid : Nat)
    (body : Table → Table × Bool) : Table × Bool × Option IOError :=
  match monitor_kevent_enter t ident filter qid with
  | (t1, some e) => (t1, false, some e)
  | (t1, none) =>
    let b := body t1
    (monitor_kevent_exit b.1 ident filter, b.2, none)

/-- The argument of `wait_readable` / `wait_writable`: either a plain
integer file descriptor or an object whose `fileno()` method returns one. -/
inductive FdArg where
  | int (n : Nat)
  | obj (filenoVal : Nat)
  deriving DecidableEq, Repr

/-- The result of `FdArg.fileno ()` for an object argument; unused for
integer arguments. -/
def FdArg.fileno : FdArg → Nat
  | .int n => n
  | .obj v => v

/-- The observable outcome of `_wait_common(fd, filter)` up to its
suspension: the `if not isinstance(fd, int): fd = fd.fileno()` resolution,
the one-shot `kevent` submitted via `kqueue.control([event], 0)`, and the
table produced by the `wait_kevent` registration it then performs. -/
structure WaitCommonResult where
  submitted : KEvent
  key : Key
  table : Table
  err : Option IOError
  deriving DecidableEq, Repr

/-- `KqueueIOManager._wait_common(fd, filter)` up to the suspension point:
resolve a non-integer argument through `fileno()`, submit a
`KQ_EV_ADD | KQ_EV_ONESHOT` kevent for it, then register via
`wait_kevent(fd, filter, abort)`. -/
def wait_common (t : Table) (fd : FdArg) (filter : Int) (tid : Nat) :
    WaitCommonResult :=
  let fdn := match fd with
    | .int n => n
    | .obj _ => fd.fileno
  let flags := KQ_EV_ADD ||| KQ_EV_ONESHOT
  let event : KEvent := ⟨fdn, filter, flags⟩
  let r := wait_kevent_register t fdn filter tid
  ⟨event, (fdn, filter), r.1, r.2⟩

/-- `KqueueIOManager.wait_readable(fd)`: `_wait_common(fd, KQ_FILTER_READ)`. -/
def wait_readable (t : Table) (fd : FdArg) (tid : Nat) : WaitCommonResult :=
  wait_common t fd KQ_FILTER_READ tid

/-- `KqueueIOManager.wait_writable(fd)`: `_wait_common(fd, KQ_FILTER_WRITE)`. -/
def wait_writable (t : Table) (fd : FdArg) (tid : Nat) : WaitCommonResult :=
  wait_common t fd KQ_FILTER_WRITE tid

/-! ### Helper lemmas about the table operations -/

theorem lookupReg_eraseReg_self (t : Table) (k : Key) :
    lookupReg (eraseReg t k) k = none := by
  induction t with
  | nil => rfl
  | cons kv rest ih =>
    by_cases h : kv.1 = k
    · simpa [eraseReg, h] using ih
    · simp [eraseReg, lookupReg, h, ih]

theorem containsReg_eraseReg_self (t : Table) (k : Key) :
    containsReg (eraseReg t k) k = false := by
  simp [containsReg, lookupReg_eraseReg_self]

theorem lookupReg_eraseReg_none (t : Table) (k k' : Key)
    (h : lookupReg t k = none) : lookupReg (eraseReg t k') k = none := by
  induction t with
  | nil => rfl
  | cons kv rest ih =>
    by_cases hk : kv.1 = k
    · simp [lookupReg, hk] at h
    · by_cases hk' : kv.1 = k'
      · simp [lookupReg, hk] at h
        simp [eraseReg, hk', ih h]
      · simp [lookupReg, hk] at h
        simp [eraseReg, lookupReg, hk, hk', ih h]

theorem lookupReg_insertReg_self (t : Table) (k : Key) (v : Receiver) :
    lookupReg (insertReg t k v) k = some v := by
  induction t with
  | nil => simp [insertReg, lookupReg]
  | cons kv rest ih =>
    by_cases h : kv.1 = k
    · simp [insertReg, lookupReg, h]
    · simp [insertReg, lookupReg, h, ih]

/-! ### Helper lemmas about the dispatch loop -/

/-- The dispatch loop never inserts keys: a key absent from the table stays
absent through the whole loop. -/
theorem dispatchAll_lookup_none (evs : List KEvent) (t : Table) (k : Key)
    (h : lookupReg t k = none) :
    lookupReg (dispatchAll t evs).table k = none := by
  induction evs generalizing t with
  | nil => simpa [dispatchAll] using h
  | cons ev rest ih =>
    rcases hl : lookupReg t (ev.ident, ev.filter) with _ | recv
    · simpa [dispatchAll, hl] using h
    · by_cases hf : ev.flags &&& KQ_EV_ONESHOT ≠ 0
      · simpa [dispatchAll, hl, hf] using
          ih _ (lookupReg_eraseReg_none _ _ _ h)
      · simpa [dispatchAll, hl, hf] using ih _ h

/-- A key absent from the table receives no action from the dispatch loop. -/
theorem dispatchAll_actions_key_ne (evs : List KEvent) (t : Table) (k : Key)
    (h : lookupReg t k = none) :
    ∀ a ∈ (dispatchAll t evs).actions, a.key ≠ k := by
  induction evs generalizing t with
  | nil => simp [dispatchAll]
  | cons ev rest ih =>
    rcases hl : lookupReg t (ev.ident, ev.filter) with _ | recv
    · simp [dispatchAll, hl]
    · have hkne : (ev.ident, ev.filter) ≠ k := by
        intro hEq
        rw [hEq, h] at hl
        exact Option.noConfusion hl
      intro a ha
      by_cases hf : ev.flags &&& KQ_EV_ONESHOT ≠ 0 <;>
        simp [dispatchAll, hl, hf] at ha
      · rcases ha with ha | ha
        · subst ha
          cases recv <;> simpa [dispatchAction, Action.key] using hkne
        · exact ih _ (lookupReg_eraseReg_none _ _ _ h) a ha
      · rcases ha with ha | ha
        · subst ha
          cases recv <;> simpa [dispatchAction, Action.key] using hkne
        · exact ih _ h a ha

/-- Counting form of `dispatchAll_actions_key_ne`. -/
theorem dispatchAll_countP_zero (evs : List KEvent) (t : Table) (k : Key)
    (h : lookupReg t k = none) :
    (dispatchAll t evs).actions.countP (fun a => decide (a.key = k)) = 0 := by
  rw [List.countP_eq_zero]
  intro a ha
  simpa using dispatchAll_actions_key_ne evs t k h a ha

/-- If some drained event has a key the initial table does not hold, the
dispatch loop aborts with a `KeyError` (the table only shrinks during the
loop, so the lookup cannot start succeeding later). -/
theorem dispatchAll_err_of_missing (evs : List KEvent) (t : Table)
    (ev : KEvent) (hmem : ev ∈ evs)
    (hmiss : lookupReg t (ev.ident, ev.filter) = none) :
    ∃ k, (dispatchAll t evs).err = some (IOError.keyError k) := by
  induction evs generalizing t with
  | nil => cases hmem
  | cons ev0 rest ih =>
    rcases hl : lookupReg t (ev0.ident, ev0.filter) with _ | recv
    · exact ⟨(ev0.ident, ev0.filter), by simp [dispatchAll, hl]⟩
    · have hmem' : ev ∈ rest := by
        rcases List.mem_cons.mp hmem with hEq | hmem'
        · subst hEq
          rw [hmiss] at hl
          exact Option.noConfusion hl
        · exact hmem'
      by_cases hf : ev0.flags &&& KQ_EV_ONESHOT ≠ 0
      · obtain ⟨k, hk⟩ := ih _ hmem' (lookupReg_eraseReg_none _ _ _ hmiss)
        exact ⟨k, by simpa [dispatchAll, hl, hf] using hk⟩
      · obtain ⟨k, hk⟩ := ih _ hmem' hmiss
        exact ⟨k, by simpa [dispatchAll, hl, hf] using hk⟩

/-- Every error the dispatch loop produces is a `KeyError` holding the
offending key. -/
theorem dispatchAll_err_shape (evs : List KEvent) (t : Table) (e : IOError)
    (h : (dispatchAll t evs).err = some e) :
    ∃ k, e = IOError.keyError k := by
  induction evs generalizing t with
  | nil => simp [dispatchAll] at h
  | cons ev rest ih =>
    rcases hl : lookupReg t (ev.ident, ev.filter) with _ | recv
    · simp [dispatchAll, hl] at h
      exact ⟨(ev.ident, ev.filter), h.symm⟩
    · by_cases hf : ev.flags &&& KQ_EV_ONESHOT ≠ 0 <;>
        simp [dispatchAll, hl, hf] at h
      · exact ih _ h
      · exact ih _ h

/-- When the dispatch loop completes without error, it has emitted one
action per drained event. -/
theorem dispatchAll_actions_length (evs : List KEvent) (t : Table)
    (h : (dispatchAll t evs).err = none) :
    (dispatchAll t evs).actions.length = evs.length := by
  induction evs generalizing t with
  | nil => simp [dispatchAll]
  | cons ev rest ih =>
    rcases hl : lookupReg t (ev.ident, ev.filter) with _ | recv
    · simp [dispatchAll, hl] at h
    · by_cases hf : ev.flags &&& KQ_EV_ONESHOT ≠ 0 <;>
        simp [dispatchAll, hl, hf] at h ⊢ <;> exact ih _ h

/-- Dispatching events none of which carries the one-shot flag leaves the
table exactly as it was. -/
theorem dispatchAll_table_no_oneshot (evs : List KEvent) (t : Table)
    (h : ∀ e ∈ evs, e.flags &&& KQ_EV_ONESHOT = 0) :
    (dispatchAll t evs).table = t := by
  induction evs generalizing t with
  | nil => rfl
  | cons ev rest ih =>
    have hev := h ev (List.mem_cons_self ev rest)
    rcases hl : lookupReg t (ev.ident, ev.filter) with _ | recv
    · simp [dispatchAll, hl]
    · simp [dispatchAll, hl, hev]
      exact ih _ fun e he => h e (List.mem_cons_of_mem ev he)

/-! ### Helper lemmas about the polling loop -/

/-- Characterisation of the polling loop: with positive capacity and enough
fuel, it drains all pending events, leaves the kernel empty, and issues one
poll with the caller's timeout followed by `pending.length / max_events`
non-blocking re-polls, every one with capacity `max_events`. -/
theorem drainAux_spec (max_events : Nat) (hpos : 0 < max_events) :
    ∀ (fuel : Nat) (pending : List KEvent) (timeout : Timeout),
    pending.length < fuel →
    drainAux fuel max_events timeout pending =
      (pending, [], (max_events, timeout) ::
        List.replicate (pending.length / max_events) (max_events, some 0)) := by
  intro fuel
  induction fuel with
  | zero => intro pending timeout h; omega
  | succ fuel ih =>
    intro pending timeout h
    by_cases hlt : pending.length < max_events
    · have htake : pending.take max_events = pending :=
        List.take_of_length_le (Nat.le_of_lt hlt)
      have hdrop : pending.drop max_events = [] :=
        List.drop_eq_nil_of_le (Nat.le_of_lt hlt)
      simp [drainAux, kqueueControl, htake, hdrop, hlt, Nat.div_eq_of_lt hlt]
    · push_neg at hlt
      have hlen : (pending.take max_events).length = max_events := by
        rw [List.length_take]
        omega
      have hrest : (pending.drop max_events).length =
          pending.length - max_events := by simp
      have hlt' : (pending.drop max_events).length < fuel := by
        rw [hrest]; omega
      have hdiv : pending.length / max_events =
          (pending.length - max_events) / max_events + 1 :=
        Nat.div_eq_sub_div hpos hlt
      simp only [drainAux, kqueueControl, hlen, Nat.lt_irrefl, if_false,
        ih _ (some 0) hlt']
      rw [hdiv, List.replicate_succ]
      simp [List.take_append_drop, hrest]

/-- `handle_io` in closed form: it polls with capacity
`len(self._registered) + 1` (the caller's timeout first, `0` afterwards),
drains the kernel completely, and runs the dispatch loop on all drained
events. -/
theorem handle_io_eq (t : Table) (pending : List KEvent) (timeout : Timeout) :
    handle_io t pending timeout =
      ⟨(t.length + 1, timeout) ::
         List.replicate (pending.length / (t.length + 1))
           (t.length + 1, some 0),
       pending, [],
       (dispatchAll t pending).table, (dispatchAll t pending).actions,
       (dispatchAll t pending).err⟩ := by
  have h := drainAux_spec (t.length + 1) (Nat.succ_pos _) (pending.length + 1)
    pending timeout (Nat.lt_succ_self _)
  simp [handle_io, h]

/-- The counters computed by the `statistics` loop are the numbers of Task
and of queue receivers in the table. -/
theorem statsLoop_eq (t : Table) :
    statsLoop t = ((t.filter fun kv => kv.2.isTask).length,
                   (t.filter fun kv => !kv.2.isTask).length) := by
  induction t with
  | nil => rfl
  | cons kv rest ih =>
    cases hb : kv.2.isTask <;> simp [statsLoop, List.filter_cons, hb, ih]

/-! ### Helper lemmas about error messages -/

/-- A `KeyError`'s message mentions its own key (the message is exactly the
key's rendering). -/
theorem keyError_mentionsKey (k : Key) :
    mentionsKey (IOError.keyError k) k :=
  List.infix_refl (keyRepr k).data

/-- The fixed duplicate-registration message contains no opening
parenthesis, so it mentions no key at all. -/
theorem dupMsg_not_mentionsKey (k : Key) :
    ¬ mentionsKey (IOError.runtimeError dupMsg) k := by
  intro h
  have hmem : '(' ∈ (IOError.message (IOError.runtimeError dupMsg)).data := by
    refine h.subset ?_
    have : (keyRepr k).data = '(' :: (toString k.1 ++ ", " ++
        toString k.2 ++ ")").data := by
      simp [keyRepr, String.data_append]
    simp [this]
  revert hmem
  decide

/-! ### Claim theorems -/

/-- C1: For every event processed by `handle_io` whose flags include the
one-shot flag, the registration for `(event.ident, event.filter)` is removed
from the table before the receiver is dispatched (the remainder of the
dispatch loop runs on the erased table), the receiver is resumed/pushed
exactly once for that registration, and afterwards the key is absent from
the table. -/
theorem claim_C1_oneshot_delivery (t : Table) (ev : KEvent)
    (rest : List KEvent) (timeout : Timeout) (recv : Receiver)
    (hlook : lookupReg t (ev.ident, ev.filter) = some recv)
    (hflag : ev.flags &&& KQ_EV_ONESHOT ≠ 0) :
    (handle_io t (ev :: rest) timeout).actions =
      dispatchAction recv ev ::
        (dispatchAll (eraseReg t (ev.ident, ev.filter)) rest).actions ∧
    (handle_io t (ev :: rest) timeout).actions.countP
      (fun a => decide (a.key = (ev.ident, ev.filter))) = 1 ∧
    containsReg (handle_io t (ev :: rest) timeout).table
      (ev.ident, ev.filter) = false := by
  rw [handle_io_eq]
  have hnone : lookupReg (eraseReg t (ev.ident, ev.filter))
      (ev.ident, ev.filter) = none := lookupReg_eraseReg_self t _
  refine ⟨by simp [dispatchAll, hlook, hflag], ?_, ?_⟩
  · have hkey : (dispatchAction recv ev).key = (ev.ident, ev.filter) := by
      cases recv <;> rfl
    simp [dispatchAll, hlook, hflag, List.countP_cons, hkey,
      dispatchAll_countP_zero rest _ _ hnone]
  · simp [dispatchAll, hlook, hflag, containsReg,
      dispatchAll_lookup_none rest _ _ hnone]

/-- C1 witness: a one-shot read event for a waiting task on fd 7. -/
theorem claim_C1_oneshot_delivery_witness :
    lookupReg [((7, -1), Receiver.task 5)] ((7 : Nat), (-1 : Int)) =
      some (Receiver.task 5) ∧
    (16 : Nat) &&& KQ_EV_ONESHOT ≠ 0 ∧
    ((handle_io [((7, -1), Receiver.task 5)] [⟨7, -1, 16⟩]
        (some 0)).actions =
      dispatchAction (Receiver.task 5) ⟨7, -1, 16⟩ ::
        (dispatchAll (eraseReg [((7, -1), Receiver.task 5)] (7, -1))
          []).actions ∧
    (handle_io [((7, -1), Receiver.task 5)] [⟨7, -1, 16⟩]
        (some 0)).actions.countP
      (fun a => decide (a.key = (7, -1))) = 1 ∧
    containsReg (handle_io [((7, -1), Receiver.task 5)] [⟨7, -1, 16⟩]
        (some 0)).table (7, -1) = false) :=
  ⟨rfl, by decide,
    claim_C1_oneshot_delivery [((7, -1), Receiver.task 5)] ⟨7, -1, 16⟩ []
      (some 0) (Receiver.task 5) rfl (by decide)⟩

/-- C2: Registering a key that is already present raises the
duplicate-registration `RuntimeError` synchronously — `wait_kevent` before
its suspension point, `monitor_kevent` before its `yield` — and returns the
table exactly as it was, with no mutation of the existing registration or of
any other entry. -/
theorem claim_C2_duplicate_registration (t : Table) (ident : Nat)
    (filter : Int) (tid qid : Nat)
    (h : containsReg t (ident, filter) = true) :
    wait_kevent_register t ident filter tid =
      (t, some (IOError.runtimeError dupMsg)) ∧
    monitor_kevent_enter t ident filter qid =
      (t, some (IOError.runtimeError dupMsg)) := by
  constructor <;> simp [wait_kevent_register, monitor_kevent_enter, h]

/-- C2 witness: key (4, -1) is already held by a monitor. -/
theorem claim_C2_duplicate_registration_witness :
    containsReg [((4, -1), Receiver.queue 2)] ((4 : Nat), (-1 : Int)) =
      true ∧
    (wait_kevent_register [((4, -1), Receiver.queue 2)] 4 (-1) 9 =
      ([((4, -1), Receiver.queue 2)], some (IOError.runtimeError dupMsg)) ∧
    monitor_kevent_enter [((4, -1), Receiver.queue 2)] 4 (-1) 3 =
      ([((4, -1), Receiver.queue 2)], some (IOError.runtimeError dupMsg))) :=
  ⟨rfl, claim_C2_duplicate_registration [((4, -1), Receiver.queue 2)]
    4 (-1) 9 3 rfl⟩

/-- C3: `handle_io` polls with capacity exactly
`len(self._registered) + 1` (strictly positive even on an empty table), uses
the caller's timeout only for the first poll and `0` for every re-poll,
re-polls exactly while batches fill the requested capacity (one final
under-capacity poll ends the loop), drains every pending event, and — when
dispatch does not fault — dispatches one action per accumulated event before
returning. -/
theorem claim_C3_drain_polling (t : Table) (pending : List KEvent)
    (timeout : Timeout) :
    (handle_io t pending timeout).polls =
      (t.length + 1, timeout) ::
        List.replicate (pending.length / (t.length + 1))
          (t.length + 1, some 0) ∧
    (handle_io t pending timeout).events = pending ∧
    (handle_io t pending timeout).kernel = [] ∧
    ((handle_io t pending timeout).err = none →
      (handle_io t pending timeout).actions.length = pending.length) := by
  rw [handle_io_eq]
  exact ⟨rfl, rfl, rfl, fun h => dispatchAll_actions_length pending t h⟩

/-- C3 witness: an empty table (capacity 1) with two pending events: three
polls, the first with the caller's timeout, then two non-blocking ones. -/
theorem claim_C3_drain_polling_witness :
    (handle_io [((2, -1), Receiver.task 1), ((3, -1), Receiver.task 4)]
        [⟨2, -1, 16⟩, ⟨3, -1, 16⟩] (some 7)).polls =
      ((2 : Nat) + 1, some 7) ::
        List.replicate (2 / (2 + 1)) ((2 : Nat) + 1, some 0) ∧
    (handle_io [((2, -1), Receiver.task 1), ((3, -1), Receiver.task 4)]
        [⟨2, -1, 16⟩, ⟨3, -1, 16⟩] (some 7)).events =
      [⟨2, -1, 16⟩, ⟨3, -1, 16⟩] ∧
    (handle_io [((2, -1), Receiver.task 1), ((3, -1), Receiver.task 4)]
        [⟨2, -1, 16⟩, ⟨3, -1, 16⟩] (some 7)).kernel = [] ∧
    (handle_io [((2, -1), Receiver.task 1), ((3, -1), Receiver.task 4)]
        [⟨2, -1, 16⟩, ⟨3, -1, 16⟩] (some 7)).actions.length = 2 :=
  ⟨(claim_C3_drain_polling
      [((2, -1), Receiver.task 1), ((3, -1), Receiver.task 4)]
      [⟨2, -1, 16⟩, ⟨3, -1, 16⟩] (some 7)).1,
   (claim_C3_drain_polling
      [((2, -1), Receiver.task 1), ((3, -1), Receiver.task 4)]
      [⟨2, -1, 16⟩, ⟨3, -1, 16⟩] (some 7)).2.1,
   (claim_C3_drain_polling
      [((2, -1), Receiver.task 1), ((3, -1), Receiver.task 4)]
      [⟨2, -1, 16⟩, ⟨3, -1, 16⟩] (some 7)).2.2.1,
   (claim_C3_drain_polling
      [((2, -1), Receiver.task 1), ((3, -1), Receiver.task 4)]
      [⟨2, -1, 16⟩, ⟨3, -1, 16⟩] (some 7)).2.2.2 (by decide)⟩

/-- C4 counterexample: the claim "every event dispatched to a Monitor
receiver leaves the registration in the table" is false: the dispatch loop
deletes the registration for any event carrying `KQ_EV_ONESHOT`, whatever
the receiver's type.  A one-shot write event for a monitor on key
`(3, -2)` is pushed to the queue, yet the key is gone afterwards. -/
theorem claim_C4_counterexample :
    (handle_io [((3, -2), Receiver.queue 0)] [⟨3, -2, 16⟩]
        (some 0)).actions = [Action.putNowait 0 ⟨3, -2, 16⟩] ∧
    containsReg (handle_io [((3, -2), Receiver.queue 0)] [⟨3, -2, 16⟩]
        (some 0)).table (3, -2) = false := by
  decide

/-- C4 (amended): For every event *not carrying the one-shot flag*
dispatched by `handle_io` to a Monitor receiver, the event is pushed into
its queue with the non-blocking `put_nowait` and the registration stays in
the table (the rest of the dispatch runs on the unchanged table); when no
dispatched event carries the flag, the monitor's entry survives all
deliveries.  (An event that does carry the flag removes even a Monitor's
registration.) -/
theorem claim_C4_monitor_persistence (t : Table) (ev : KEvent)
    (rest : List KEvent) (timeout : Timeout) (qid : Nat)
    (hlook : lookupReg t (ev.ident, ev.filter) = some (Receiver.queue qid))
    (hflag : ev.flags &&& KQ_EV_ONESHOT = 0) :
    (handle_io t (ev :: rest) timeout).actions =
      Action.putNowait qid ev :: (dispatchAll t rest).actions ∧
    (handle_io t (ev :: rest) timeout).table = (dispatchAll t rest).table ∧
    ((∀ e ∈ rest, e.flags &&& KQ_EV_ONESHOT = 0) →
      lookupReg (handle_io t (ev :: rest) timeout).table
        (ev.ident, ev.filter) = some (Receiver.queue qid)) := by
  rw [handle_io_eq]
  refine ⟨by simp [dispatchAll, hlook, hflag, dispatchAction],
          by simp [dispatchAll, hlook, hflag], fun hall => ?_⟩
  have htab : (dispatchAll t (ev :: rest)).table = t :=
    dispatchAll_table_no_oneshot (ev :: rest) t (by
      intro e he
      rcases List.mem_cons.mp he with hEq | hmem
      · exact hEq ▸ hflag
      · exact hall e hmem)
  simpa [htab] using hlook

/-- C4 witness: the spec's own scenario — a monitor for `(3, WRITE)`
receiving a (non-one-shot) ready write event keeps its table entry. -/
theorem claim_C4_monitor_persistence_witness :
    lookupReg [((3, -2), Receiver.queue 0)] ((3 : Nat), (-2 : Int)) =
      some (Receiver.queue 0) ∧
    (0 : Nat) &&& KQ_EV_ONESHOT = 0 ∧
    ((handle_io [((3, -2), Receiver.queue 0)]
        [⟨3, -2, 0⟩, ⟨3, -2, 0⟩, ⟨3, -2, 0⟩] (some 0)).actions =
      Action.putNowait 0 ⟨3, -2, 0⟩ ::
        (dispatchAll [((3, -2), Receiver.queue 0)]
          [⟨3, -2, 0⟩, ⟨3, -2, 0⟩]).actions ∧
    (handle_io [((3, -2), Receiver.queue 0)]
        [⟨3, -2, 0⟩, ⟨3, -2, 0⟩, ⟨3, -2, 0⟩] (some 0)).table =
      (dispatchAll [((3, -2), Receiver.queue 0)]
        [⟨3, -2, 0⟩, ⟨3, -2, 0⟩]).table ∧
    ((∀ e ∈ [(⟨3, -2, 0⟩ : KEvent), ⟨3, -2, 0⟩],
        e.flags &&& KQ_EV_ONESHOT = 0) →
      lookupReg (handle_io [((3, -2), Receiver.queue 0)]
          [⟨3, -2, 0⟩, ⟨3, -2, 0⟩, ⟨3, -2, 0⟩] (some 0)).table (3, -2) =
        some (Receiver.queue 0))) :=
  ⟨rfl, by decide,
    claim_C4_monitor_persistence [((3, -2), Receiver.queue 0)] ⟨3, -2, 0⟩
      [⟨3, -2, 0⟩, ⟨3, -2, 0⟩] (some 0) 0 rfl (by decide)⟩

/-- C5: The abort wrapper installed by `wait_kevent` removes the key from
the table if and only if the caller-supplied `abort_func` returned
`Abort.SUCCEEDED`; on `Abort.FAILED` the table is untouched, and in both
cases the wrapper returns exactly `abort_func`'s outcome. -/
theorem claim_C5_abort_atomicity (t : Table) (key : Key) (r : Abort)
    (hpend : containsReg t key = true) :
    (wait_kevent_abort t key r).2 = r ∧
    (containsReg (wait_kevent_abort t key r).1 key = false ↔
      r = Abort.SUCCEEDED) ∧
    (r = Abort.FAILED → (wait_kevent_abort t key r).1 = t) := by
  cases r with
  | SUCCEEDED => simp [wait_kevent_abort, containsReg_eraseReg_self]
  | FAILED => simp [wait_kevent_abort, hpend]

/-- C5 witness: a pending waiter on `(7, -1)`, abort succeeding. -/
theorem claim_C5_abort_atomicity_witness :
    containsReg [((7, -1), Receiver.task 2)] ((7 : Nat), (-1 : Int)) =
      true ∧
    ((wait_kevent_abort [((7, -1), Receiver.task 2)] (7, -1)
        Abort.SUCCEEDED).2 = Abort.SUCCEEDED ∧
    (containsReg (wait_kevent_abort [((7, -1), Receiver.task 2)] (7, -1)
        Abort.SUCCEEDED).1 (7, -1) = false ↔
      Abort.SUCCEEDED = Abort.SUCCEEDED) ∧
    (Abort.SUCCEEDED = Abort.FAILED →
      (wait_kevent_abort [((7, -1), Receiver.task 2)] (7, -1)
        Abort.SUCCEEDED).1 = [((7, -1), Receiver.task 2)])) :=
  ⟨rfl, claim_C5_abort_atomicity [((7, -1), Receiver.task 2)] (7, -1)
    Abort.SUCCEEDED rfl⟩

/-- C6: If `handle_io` drains an event whose `(ident, filter)` key has no
entry in the registration table, it raises a `KeyError` that propagates out
of `handle_io` rather than silently skipping the event. -/
theorem claim_C6_missing_registration_fatal (t : Table)
    (pending : List KEvent) (timeout : Timeout) (ev : KEvent)
    (hmem : ev ∈ pending)
    (hmiss : lookupReg t (ev.ident, ev.filter) = none) :
    ∃ k, (handle_io t pending timeout).err = some (IOError.keyError k) := by
  rw [handle_io_eq]
  exact dispatchAll_err_of_missing pending t ev hmem hmiss

/-- C6 witness: a one-shot read event for fd 7 arriving on an empty table. -/
theorem claim_C6_missing_registration_fatal_witness :
    (⟨7, -1, 17⟩ : KEvent) ∈ [(⟨7, -1, 17⟩ : KEvent)] ∧
    lookupReg [] ((7 : Nat), (-1 : Int)) = none ∧
    ∃ k, (handle_io [] [⟨7, -1, 17⟩] (some 0)).err =
      some (IOError.keyError k) :=
  ⟨by decide, rfl,
    claim_C6_missing_registration_fatal [] [⟨7, -1, 17⟩] (some 0)
      ⟨7, -1, 17⟩ (by decide) rfl⟩

/-- C7 counterexample: the claim "every duplicate-registration error carries
the offending key in its message" is false: registering `(1, -1)` twice via
`monitor_kevent` raises the fixed `RuntimeError` message, which does not
contain the key's rendering `"(1, -1)"`. -/
theorem claim_C7_counterexample :
    (monitor_kevent_enter [((1, -1), Receiver.task 0)] 1 (-1) 1).2 =
      some (IOError.runtimeError dupMsg) ∧
    ¬ mentionsKey (IOError.runtimeError dupMsg) (1, -1) :=
  ⟨by decide, dupMsg_not_mentionsKey (1, -1)⟩

/-- C7 (amended): Every missing-registration error raised during the
`handle_io` dispatch loop is a `KeyError` whose message carries the
offending `(ident, filter)` key; the duplicate-registration errors raised by
`wait_kevent` and `monitor_kevent` instead carry the fixed message
`dupMsg`, which mentions no key. -/
theorem claim_C7_error_messages (t : Table) (evs : List KEvent)
    (e : IOError) (t2 : Table) (ident : Nat) (filter : Int)
    (tid qid : Nat) (e2 : IOError)
    (hdisp : (dispatchAll t evs).err = some e)
    (hdup : (wait_kevent_register t2 ident filter tid).2 = some e2 ∨
            (monitor_kevent_enter t2 ident filter qid).2 = some e2) :
    (∃ k, e = IOError.keyError k ∧ mentionsKey e k) ∧
    e2 = IOError.runtimeError dupMsg ∧
    ¬ mentionsKey e2 (ident, filter) := by
  have he2 : e2 = IOError.runtimeError dupMsg := by
    rcases hdup with h | h <;>
      by_cases hc : containsReg t2 (ident, filter) = true
    · simp [wait_kevent_register, hc] at h
      exact h.symm
    · simp [wait_kevent_register, hc] at h
    · simp [monitor_kevent_enter, hc] at h
      exact h.symm
    · simp [monitor_kevent_enter, hc] at h
  obtain ⟨k, hk⟩ := dispatchAll_err_shape evs t e hdisp
  exact ⟨⟨k, hk, hk ▸ keyError_mentionsKey k⟩,
    he2, he2 ▸ dupMsg_not_mentionsKey (ident, filter)⟩

/-- C7 witness: a missing registration for fd 7 during dispatch, and a
duplicate registration of `(1, -1)`. -/
theorem claim_C7_error_messages_witness :
    (dispatchAll [] [⟨7, -1, 0⟩]).err = some (IOError.keyError (7, -1)) ∧
    ((wait_kevent_register [((1, -1), Receiver.task 0)] 1 (-1) 2).2 =
        some (IOError.runtimeError dupMsg) ∨
      (monitor_kevent_enter [((1, -1), Receiver.task 0)] 1 (-1) 3).2 =
        some (IOError.runtimeError dupMsg)) ∧
    ((∃ k, IOError.keyError ((7 : Nat), (-1 : Int)) = IOError.keyError k ∧
        mentionsKey (IOError.keyError (7, -1)) k) ∧
    IOError.runtimeError dupMsg = IOError.runtimeError dupMsg ∧
    ¬ mentionsKey (IOError.runtimeError dupMsg) (1, -1)) :=
  ⟨by decide, Or.inl (by decide),
    claim_C7_error_messages [] [⟨7, -1, 0⟩] (IOError.keyError (7, -1))
      [((1, -1), Receiver.task 0)] 1 (-1) 2 3
      (IOError.runtimeError dupMsg) (by decide) (Or.inl (by decide))⟩

/-- C8: For every key not already registered, `monitor_kevent` inserts a
Monitor (queue) receiver under that key, and the `finally` clause of the
context manager removes the key on every exit of the scope — whether the
body finished normally or raised. -/
theorem claim_C8_monitor_scope (t : Table) (ident : Nat) (filter : Int)
    (qid : Nat) (body : Table → Table × Bool)
    (h : containsReg t (ident, filter) = false) :
    monitor_kevent_enter t ident filter qid =
      (insertReg t (ident, filter) (Receiver.queue qid), none) ∧
    lookupReg (monitor_kevent_enter t ident filter qid).1 (ident, filter) =
      some (Receiver.queue qid) ∧
    containsReg (monitor_kevent_run t ident filter qid body).1
      (ident, filter) = false := by
  refine ⟨by simp [monitor_kevent_enter, h], ?_, ?_⟩
  · simp [monitor_kevent_enter, h, lookupReg_insertReg_self]
  · simp [monitor_kevent_run, monitor_kevent_enter, h, monitor_kevent_exit,
      containsReg_eraseReg_self]

/-- C8 witness: a fresh monitor on `(3, -2)` whose body raises. -/
theorem claim_C8_monitor_scope_witness :
    containsReg [] ((3 : Nat), (-2 : Int)) = false ∧
    (monitor_kevent_enter [] 3 (-2) 0 =
      (insertReg [] (3, -2) (Receiver.queue 0), none) ∧
    lookupReg (monitor_kevent_enter [] 3 (-2) 0).1 (3, -2) =
      some (Receiver.queue 0) ∧
    containsReg (monitor_kevent_run [] 3 (-2) 0
        (fun t2 => (t2, true))).1 (3, -2) = false) :=
  ⟨rfl, claim_C8_monitor_scope [] 3 (-2) 0 (fun t2 => (t2, true)) rfl⟩

/-- C9: For every registration table, `statistics()` reports
`tasks_waiting` equal to the number of Task receivers, `monitors` equal to
the number of queue receivers, and backend `"kqueue"`.  (The embedding is a
pure function of the table, so the table is not modified.) -/
theorem claim_C9_statistics (t : Table) :
    (statistics t).tasks_waiting =
      (t.filter fun kv => kv.2.isTask).length ∧
    (statistics t).monitors =
      (t.filter fun kv => !kv.2.isTask).length ∧
    (statistics t).backend = "kqueue" := by
  simp [statistics, statsLoop_eq]

/-- C10: `wait_readable`/`wait_writable` use the argument's `fileno()`
value as the interest identity when the argument is not an integer, and the
integer itself otherwise — both for the one-shot kernel submission and for
the key registered in the table. -/
theorem claim_C10_fileno_resolution (t : Table) (n : Nat) (tid : Nat)
    (fd : FdArg) :
    (wait_readable t (FdArg.obj n) tid).submitted.ident =
      FdArg.fileno (FdArg.obj n) ∧
    (wait_readable t (FdArg.obj n) tid).key =
      (FdArg.fileno (FdArg.obj n), KQ_FILTER_READ) ∧
    (wait_writable t (FdArg.obj n) tid).submitted.ident =
      FdArg.fileno (FdArg.obj n) ∧
    (wait_writable t (FdArg.obj n) tid).key =
      (FdArg.fileno (FdArg.obj n), KQ_FILTER_WRITE) ∧
    (wait_readable t (FdArg.int n) tid).submitted.ident = n ∧
    (wait_readable t (FdArg.int n) tid).key = (n, KQ_FILTER_READ) ∧
    (wait_writable t (FdArg.int n) tid).submitted.ident = n ∧
    (wait_writable t (FdArg.int n) tid).key = (n, KQ_FILTER_WRITE) ∧
    (containsReg t (FdArg.fileno fd, KQ_FILTER_READ) = false →
      lookupReg (wait_readable t fd tid).table
        (FdArg.fileno fd, KQ_FILTER_READ) = some (Receiver.task tid)) := by
  refine ⟨rfl, rfl, rfl, rfl, rfl, rfl, rfl, rfl, fun h => ?_⟩
  cases fd with
  | int m =>
    simp only [FdArg.fileno] at h
    simp [wait_readable, wait_common, wait_kevent_register, FdArg.fileno,
      h, lookupReg_insertReg_self]
  | obj v =>
    simp only [FdArg.fileno] at h
    simp [wait_readable, wait_common, wait_kevent_register, FdArg.fileno,
      h, lookupReg_insertReg_self]

/-- C10 witness: an fd-like object with `fileno() = 9` on an empty table. -/
theorem claim_C10_fileno_resolution_witness :
    (wait_readable [] (FdArg.obj 9) 4).submitted.ident =
      FdArg.fileno (FdArg.obj 9) ∧
    (wait_readable [] (FdArg.obj 9) 4).key =
      (FdArg.fileno (FdArg.obj 9), KQ_FILTER_READ) ∧
    (wait_writable [] (FdArg.obj 9) 4).submitted.ident =
      FdArg.fileno (FdArg.obj 9) ∧
    (wait_writable [] (FdArg.obj 9) 4).key =
      (FdArg.fileno (FdArg.obj 9), KQ_FILTER_WRITE) ∧
    (wait_readable [] (FdArg.int 9) 4).submitted.ident = 9 ∧
    (wait_readable [] (FdArg.int 9) 4).key = (9, KQ_FILTER_READ) ∧
    (wait_writable [] (FdArg.int 9) 4).submitted.ident = 9 ∧
    (wait_writable [] (FdArg.int 9) 4).key = (9, KQ_FILTER_WRITE) ∧
    (containsReg [] (FdArg.fileno (FdArg.obj 9), KQ_FILTER_READ) = false →
      lookupReg (wait_readable [] (FdArg.obj 9) 4).table
        (FdArg.fileno (FdArg.obj 9), KQ_FILTER_READ) =
          some (Receiver.task 4)) :=
  claim_C10_fileno_resolution [] 9 4 (FdArg.obj 9)

end KqueueModel
